import Mathlib

/-
  Shallow embedding of the validation core of pynxtools:
  - src/nexusparser/tools/dataconverter/helpers.py
  - src/nexusparser/tools/read_nexus.py
  Python exceptions are modelled with `Except PyErr`; Python values with `PyVal`;
  lxml/objectify elements with `XElem`.  Strings are processed through their
  character lists to keep every definition kernel-computable.
-/

namespace Pynxtools

/-- Kinds of Python exceptions that the embedded code can raise.  `exception`
carries the message of an explicit `raise Exception(...)`; the other
constructors model implicit exceptions of the Python runtime. -/
inductive PyErr where
  | exception (msg : String)
  | keyError (key : String)
  | typeError (msg : String)
  | indexError
  | valueError
  | attributeError
  | recursionError
deriving DecidableEq, Repr

/-- Host classes appearing in the accepted-type tuples of
`NEXUS_TO_PYTHON_DATA_TYPES` (helpers.py lines 94-106). -/
inductive PyClass where
  | str
  | bytes
  | bytearray
  | bool
  | int
  | float
  | ndarray
  | npBool
  | npByte
  | npUbyte
  | npFloating
  | npSignedInteger
  | npUnsignedInteger
  | npChararray
deriving DecidableEq, Repr

/-- Concrete numpy signed-integer scalar classes. -/
inductive NpIntKind where
  | byte
  | short
  | intc
  | intp
deriving DecidableEq, Repr

/-- Concrete numpy unsigned-integer scalar classes. -/
inductive NpUIntKind where
  | ubyte
  | ushort
  | uintc
  | uintp
deriving DecidableEq, Repr

/-- Concrete numpy floating scalar classes. -/
inductive NpFloatKind where
  | half
  | single
  | double
  | longdouble
deriving DecidableEq, Repr

/-- Python runtime values flowing through the validation helpers.  Numeric
payloads are exact (Int / Rat); the claims under verification never depend on
floating-point rounding.  `vNdarray` keeps the flattened element list and
whether the object is a `np.chararray` subclass instance. -/
inductive PyVal where
  | vNone
  | vBool (b : Bool)
  | vInt (n : Int)
  | vFloat (q : Rat)
  | vStr (s : String)
  | vBytes (bs : List Nat)
  | vBytearray (bs : List Nat)
  | vNpBool (b : Bool)
  | vNpSigned (k : NpIntKind) (n : Int)
  | vNpUnsigned (k : NpUIntKind) (n : Nat)
  | vNpFloat (k : NpFloatKind) (q : Rat)
  | vNdarray (isChar : Bool) (flat : List PyVal)
  | vList (xs : List PyVal)

/-- Python `isinstance` on the classes used by the type table.  A Python
`bool` is a subclass of `int`; `np.chararray` is a subclass of `np.ndarray`;
`np.byte`/`np.ubyte` are concrete subclasses of the abstract
`np.signedinteger`/`np.unsignedinteger`. -/
def isinst (v : PyVal) (c : PyClass) : Bool :=
  match v, c with
  | .vBool _, .bool => true
  | .vBool _, .int => true
  | .vInt _, .int => true
  | .vFloat _, .float => true
  | .vStr _, .str => true
  | .vBytes _, .bytes => true
  | .vBytearray _, .bytearray => true
  | .vNpBool _, .npBool => true
  | .vNpSigned k _, .npByte => k = NpIntKind.byte
  | .vNpSigned _ _, .npSignedInteger => true
  | .vNpUnsigned k _, .npUbyte => k = NpUIntKind.ubyte
  | .vNpUnsigned _ _, .npUnsignedInteger => true
  | .vNpFloat _ _, .npFloating => true
  | .vNdarray _ _, .ndarray => true
  | .vNdarray isChar _, .npChararray => isChar
  | _, _ => false

/-- Python `isinstance(v, tuple_of_classes)`. -/
def isinstAny (v : PyVal) (cs : List PyClass) : Bool :=
  cs.any (isinst v)

/-- Test for `value is None`. -/
def pyIsNone : PyVal → Bool
  | .vNone => true
  | _ => false

/-- Test for `isinstance(value, list)`. -/
def pyIsList : PyVal → Bool
  | .vList _ => true
  | _ => false

/-- Python `==` between a runtime value and a string literal: only equal
strings compare equal, every other value compares unequal. -/
def pyEqStr (v : PyVal) (s : String) : Bool :=
  match v with
  | .vStr t => t = s
  | _ => false

/-- Python repr of a class, as interpolated into f-strings. -/
def pyClassName : PyClass → String
  | .str => "<class \x27str\x27>"
  | .bytes => "<class \x27bytes\x27>"
  | .bytearray => "<class \x27bytearray\x27>"
  | .bool => "<class \x27bool\x27>"
  | .int => "<class \x27int\x27>"
  | .float => "<class \x27float\x27>"
  | .ndarray => "<class \x27numpy.ndarray\x27>"
  | .npBool => "<class \x27numpy.bool_\x27>"
  | .npByte => "<class \x27numpy.int8\x27>"
  | .npUbyte => "<class \x27numpy.uint8\x27>"
  | .npFloating => "<class \x27numpy.floating\x27>"
  | .npSignedInteger => "<class \x27numpy.signedinteger\x27>"
  | .npUnsignedInteger => "<class \x27numpy.unsignedinteger\x27>"
  | .npChararray => "<class \x27numpy.chararray\x27>"

/-- Python repr of an accepted-types entry.  In the source the entries
`(str)` are plain classes while multi-element entries are tuples, so a
singleton prints bare and the rest print parenthesised. -/
def acceptedTypesRepr : List PyClass → String
  | [c] => pyClassName c
  | cs => "(" ++ String.intercalate ", " (cs.map pyClassName) ++ ")"

/-- NEXUS_TO_PYTHON_DATA_TYPES (helpers.py lines 94-106), as an association
list preserving the order of the dict literal. -/
def NEXUS_TO_PYTHON_DATA_TYPES : List (String × List PyClass) :=
  [("ISO8601", [.str]),
   ("NX_BINARY", [.bytes, .bytearray, .npByte, .npUbyte, .ndarray]),
   ("NX_BOOLEAN", [.bool, .ndarray, .npBool]),
   ("NX_CHAR", [.str, .ndarray, .npChararray]),
   ("NX_DATE_TIME", [.str]),
   ("NX_FLOAT", [.float, .ndarray, .npFloating]),
   ("NX_INT", [.int, .ndarray, .npSignedInteger]),
   ("NX_UINT", [.ndarray, .npUnsignedInteger]),
   ("NX_NUMBER", [.int, .float, .ndarray, .npSignedInteger, .npUnsignedInteger, .npFloating]),
   ("NX_POSINT", [.int, .ndarray, .npSignedInteger]),
   ("NXDL_TYPE_UNAVAILABLE", [.str])]

/-- check_all_children_for_callable (helpers.py lines 109-115), specialised to
a boolean check that cannot raise. -/
def check_all_children_for_callable (objects : List PyVal) (check : PyVal → Bool) : Bool :=
  match objects with
  | [] => true
  | obj :: rest =>
    if check obj then check_all_children_for_callable rest check else false

/-- check_all_children_for_callable, specialised to a check that may raise a
Python exception. -/
def check_all_children_for_callableE (objects : List PyVal)
    (check : PyVal → Except PyErr Bool) : Except PyErr Bool :=
  match objects with
  | [] => .ok true
  | obj :: rest =>
    match check obj with
    | .error e => .error e
    | .ok b => if b then check_all_children_for_callableE rest check else .ok false

/-- is_valid_data_type (helpers.py lines 118-123). -/
def is_valid_data_type (value : PyVal) (accepted_types : List PyClass) : Bool :=
  match value with
  | .vList xs => check_all_children_for_callable xs (fun v => isinstAny v accepted_types)
  | v => isinstAny v accepted_types

/-- Python comparison `x > 0` for a non-ndarray value; comparing a
non-numeric value with an int raises TypeError, and Python `bool` compares
as its numeric value. -/
def pyGtZeroScalar : PyVal → Except PyErr Bool
  | .vBool b => .ok b
  | .vInt n => .ok (decide (0 < n))
  | .vFloat q => .ok (decide (0 < q))
  | .vNpBool b => .ok b
  | .vNpSigned _ n => .ok (decide (0 < n))
  | .vNpUnsigned _ n => .ok (decide (0 < n))
  | .vNpFloat _ q => .ok (decide (0 < q))
  | .vNdarray _ _ => .error (.valueError)
  | _ => .error (.typeError "TypeError: not supported between instances")

/-- The lambda is_greater_than inside is_positive_int (helpers.py line 128):
`x.flat[0] > 0 if isinstance(x, np.ndarray) else x > 0`.  Indexing `flat[0]`
of an empty array raises IndexError. -/
def is_greater_than (x : PyVal) : Except PyErr Bool :=
  match x with
  | .vNdarray _ [] => .error .indexError
  | .vNdarray _ (e :: _) => pyGtZeroScalar e
  | v => pyGtZeroScalar v

/-- is_positive_int (helpers.py lines 126-133). -/
def is_positive_int (value : PyVal) : Except PyErr Bool :=
  match value with
  | .vList xs => check_all_children_for_callableE xs is_greater_than
  | .vNdarray _ [] => .error .indexError
  | .vNdarray _ (e :: _) => pyGtZeroScalar e
  | v => pyGtZeroScalar v

/-- ASCII digit test used for the `\d` character class of the timestamp
regex (the embedded inputs are ASCII; Python would additionally accept other
Unicode decimal digits). -/
def isDig (c : Char) : Bool :=
  decide ('0' ≤ c) && decide (c ≤ '9')

/-- Consume exactly `n` digits from the front of the character list. -/
def eatDigits : Nat → List Char → Option (List Char)
  | 0, cs => some cs
  | _ + 1, [] => none
  | n + 1, c :: cs => if isDig c then eatDigits n cs else none

/-- Consume one expected literal character. -/
def eatChar (c : Char) : List Char → Option (List Char)
  | [] => none
  | d :: cs => if d = c then some cs else none

/-- Consume the optional fractional-seconds group `(?:\.\d*)?` of the
timestamp regex; the dot, when present, is followed by a greedy (possibly
empty) digit run, and since the timezone part never begins with a dot or a
digit the greedy reading is equivalent to the backtracking one. -/
def eatFrac : List Char → List Char
  | '.' :: cs => cs.dropWhile isDig
  | cs => cs

/-- Match the timezone tail `(((?!-00:00)(\+|-)(\d{2}):(\d{2})|Z){1})$` of
the timestamp regex against the whole remaining input: a bare `Z`, or a sign
with `HH:MM` where the exact text `-00:00` is excluded by the negative
lookahead. -/
def eatTz : List Char → Bool
  | ['Z'] => true
  | [s, a, b, c, d, e] =>
    (s = '+' || s = '-') && isDig a && isDig b && c = ':' && isDig d && isDig e &&
      !(s = '-' && a = '0' && b = '0' && d = '0' && e = '0')
  | _ => false

/-- Anchored match of the ISO8601 regex body of helpers.py lines 148-149
against a whole character list. -/
def iso8601Core (cs : List Char) : Bool :=
  match (((((((((eatDigits 4 cs).bind (eatChar '-')).bind (eatDigits 2)).bind
      (eatChar '-')).bind (eatDigits 2)).bind (eatChar 'T')).bind
      (eatDigits 2)).bind (eatChar ':')).bind (eatDigits 2)).bind
      (fun r => (eatChar ':' r).bind (eatDigits 2)) with
  | none => false
  | some rest => eatTz (eatFrac rest)

/-- Python `re.search` of the `^...$`-anchored ISO8601 pattern on a string:
a match of the body over the whole string, or over the string minus a single
trailing newline (Python `$` also matches just before a final newline). -/
def iso8601Search (s : String) : Bool :=
  iso8601Core s.data ||
    (s.data.getLast? = some '\n' && iso8601Core s.data.dropLast)

/-- Message of the type-mismatch Exception of helpers.py lines 141-142. -/
def typeMismatchMsg (path : String) (accepted_types : List PyClass) (nxdl_type : String) : String :=
  "The value at " ++ path ++ " should be of Python type: " ++
    acceptedTypesRepr accepted_types ++ ", as defined in the NXDL as " ++ nxdl_type ++ "."

/-- Message of the positive-int Exception of helpers.py line 145. -/
def posIntMsg (path : String) : String :=
  "The value at " ++ path ++ " should be a positive int."

/-- Message of the timestamp Exception of helpers.py lines 152-154. -/
def dateMsg (path : String) : String :=
  "The date at " ++ path ++ " should be a timezone aware ISO8601 formatted str. " ++
    "For example, 2022-01-22T12:14:12.05018Z or 2022-01-22T12:14:12.05018+00:00."

/-- Message of the TypeError raised by `re`.search when handed a non-string
object (the regex is applied directly to the value). -/
def reSearchTypeErrMsg : String :=
  "expected string or bytes-like object"

/-- Python `iso8601.search(value)` as used on line 150: only a str can be
searched; any other object raises TypeError.  Returns whether a match was
found. -/
def reSearchIso8601 (value : PyVal) : Except PyErr Bool :=
  match value with
  | .vStr s => .ok (iso8601Search s)
  | _ => .error (.typeError reSearchTypeErrMsg)

/-- Statement `if nxdl_type == "NX_POSINT" and not is_positive_int(value)`
of helpers.py lines 144-145, as one sequenced step. -/
def posintStep (value : PyVal) (nxdl_type : String) (path : String) : Except PyErr Unit :=
  if nxdl_type = "NX_POSINT" then
    match is_positive_int value with
    | .error e => .error e
    | .ok pos => if pos = false then .error (.exception (posIntMsg path)) else .ok ()
  else .ok ()

/-- Statement `if nxdl_type in ("ISO8601", "NX_DATE_TIME")` of helpers.py
lines 147-154, as one sequenced step. -/
def dateStep (value : PyVal) (nxdl_type : String) (path : String) : Except PyErr Unit :=
  if nxdl_type = "ISO8601" || nxdl_type = "NX_DATE_TIME" then
    match reSearchIso8601 value with
    | .error e => .error e
    | .ok found => if found = false then .error (.exception (dateMsg path)) else .ok ()
  else .ok ()

/-- is_valid_data_field (helpers.py lines 136-154).  The dict subscript
`NEXUS_TO_PYTHON_DATA_TYPES[nxdl_type]` raises KeyError when the declared
type is not a key of the table. -/
def is_valid_data_field (value : PyVal) (nxdl_type : String) (path : String) :
    Except PyErr Unit :=
  match NEXUS_TO_PYTHON_DATA_TYPES.lookup nxdl_type with
  | none => .error (.keyError nxdl_type)
  | some accepted_types =>
    if is_valid_data_type value accepted_types = false then
      .error (.exception (typeMismatchMsg path accepted_types nxdl_type))
    else
      match posintStep value nxdl_type path with
      | .error e => .error e
      | .ok _ => dateStep value nxdl_type path

/-- Split a character list at every occurrence of a separator, Python
`str.split(sep)` style: no merging of adjacent separators, and the empty
string splits to one empty piece. -/
def splitChar (sep : Char) : List Char → List (List Char)
  | [] => [[]]
  | c :: rest =>
    let r := splitChar sep rest
    if c = sep then [] :: r
    else
      match r with
      | [] => [[c]]
      | h :: t => (c :: h) :: t

/-- Substring test, Python `needle in hay` on strings. -/
def isSubstring (needle hay : List Char) : Bool :=
  hay.tails.any (fun t => needle.isPrefixOf t)

/-- The regex search `(.*?)(?=\[)` of
convert_data_converter_entry_to_nxdl_path_entry (helpers.py line 44): on the
leftmost-then-shortest reading this captures the characters between the last
newline preceding the first opening bracket (exclusive) and that bracket;
there is no match when the entry has no opening bracket. -/
def searchUpToBracket (cs : List Char) : Option (List Char) :=
  if cs.contains '[' then
    some (((cs.takeWhile (fun c => c ≠ '[')).reverse.takeWhile (fun c => c ≠ '\n')).reverse)
  else
    none

/-- convert_data_converter_entry_to_nxdl_path_entry (helpers.py lines 39-46):
`ENTRY[entry] -> ENTRY`; entries with no bracket pass through unchanged. -/
def convert_data_converter_entry_to_nxdl_path_entry (entry : String) : String :=
  match searchUpToBracket entry.data with
  | none => entry
  | some seg => String.mk seg

/-- convert_data_converter_dict_to_nxdl_path (helpers.py lines 49-57):
`/ENTRY[entry]/sample -> /ENTRY/sample`. -/
def convert_data_converter_dict_to_nxdl_path (path : String) : String :=
  ((splitChar '/' path.data).drop 1).foldl
    (fun acc e => acc ++ "/" ++ convert_data_converter_entry_to_nxdl_path_entry (String.mk e)) ""

/-- The regex search `(?<=\[)(.*?)(?=\])` of get_name_from_data_dict_entry
(helpers.py line 65): scanning left to right, at each opening bracket the
lazy group matches up to the first closing bracket provided no newline
intervenes; otherwise the scan continues at the next character. -/
def searchBracketed : List Char → Option (List Char)
  | [] => none
  | '[' :: rest =>
    let cand := rest.takeWhile (fun c => c ≠ ']')
    if rest.contains ']' && !(cand.contains '\n') then some cand
    else searchBracketed rest
  | _ :: rest => searchBracketed rest

/-- get_name_from_data_dict_entry (helpers.py lines 60-67):
`ENTRY[entry] -> entry`; entries with no bracketed part pass through
unchanged. -/
def get_name_from_data_dict_entry (entry : String) : String :=
  match searchBracketed entry.data with
  | none => entry
  | some seg => String.mk seg

/-- convert_data_dict_path_to_hdf5_path (helpers.py lines 70-78):
`/ENTRY[entry]/sample -> /entry/sample`. -/
def convert_data_dict_path_to_hdf5_path (path : String) : String :=
  ((splitChar '/' path.data).drop 1).foldl
    (fun acc e => acc ++ "/" ++ get_name_from_data_dict_entry (String.mk e)) ""

/-- Model of an lxml/objectify element of an NXDL document: the tag's local
name, the attribute map in document order, the `.base` document URI of the
element, its text content, and the child elements. -/
inductive XElem where
  | mk (localname : String) (attrib : List (String × String)) (base : String)
       (text : String) (children : List XElem)

/-- Tag local name of an element (`etree.QName(elem).localname`). -/
def XElem.localname : XElem → String
  | .mk l _ _ _ _ => l

/-- Attribute map of an element. -/
def XElem.attrib : XElem → List (String × String)
  | .mk _ a _ _ _ => a

/-- Source-document URI of an element (`elem.base`). -/
def XElem.base : XElem → String
  | .mk _ _ b _ _ => b

/-- Text content of an element. -/
def XElem.text : XElem → String
  | .mk _ _ _ t _ => t

/-- Child elements (`elem.getchildren()`). -/
def XElem.children : XElem → List XElem
  | .mk _ _ _ _ c => c

/-- Python truthiness of a parsed lxml/objectify element: content-based, an
element tests True when it has child elements or non-empty text content, and
a childless element with empty text tests False. -/
def xelemTruthy (e : XElem) : Bool :=
  !(e.children.isEmpty) || e.text ≠ ""

/-- Truthiness of `ownChild` on read_nexus.py line 116: None is falsy, an
element follows content-based element truthiness. -/
def ownChildTruthy : Option XElem → Bool
  | none => false
  | some c => xelemTruthy c

/-- Attribute lookup `elem.attrib[key]` as an Option. -/
def attrGet (e : XElem) (key : String) : Option String :=
  e.attrib.lookup key

/-- get_nx_class (read_nexus.py lines 48-54): the `type` attribute, with the
bare except turning a missing attribute into the default `NX_CHAR`. -/
def get_nx_class (nxdlElem : XElem) : String :=
  (attrGet nxdlElem "type").getD "NX_CHAR"

/-- belongs_to (read_nexus.py lines 57-84).  The try/except around
`nameType` turns a missing attribute into `nameAny = False`; the unguarded
accesses `nxdlElem.attrib[\x27name\x27]` raise KeyError when the element has no
name. -/
def belongs_to (nxdlElem : XElem) (hdfName : String) : Except PyErr Bool :=
  let nameAny := attrGet nxdlElem "nameType" = some "any"
  if nameAny && !(hdfName = "doc") && !(hdfName = "enumeration") then
    match attrGet nxdlElem "name" with
    | none => .error (.keyError "name")
    | some nm =>
      let nmL := nm.data
      let ct := (nmL.takeWhile (fun c => decide ('A' ≤ c) && decide (c ≤ 'Z'))).length
      if ct = nmL.length || (nmL.drop ct).isSuffixOf hdfName.data then
        .ok true
      else
        .ok false
  else
    match attrGet nxdlElem "name" with
    | none => .error (.keyError "name")
    | some nm => .ok (nm = hdfName)

/-- Loop body of get_own_nxdl_child over the child list (read_nexus.py lines
91-104); the conditions are tried per child in source order. -/
def get_own_nxdl_child_go (name : String) : List XElem → Except PyErr (Option XElem)
  | [] => .ok none
  | child :: rest =>
    if child.localname = "group" && get_nx_class child = name then
      .ok (some child)
    else if child.localname = "field" || child.localname = "attribute" then
      match belongs_to child name with
      | .error e => .error e
      | .ok b => if b then .ok (some child) else get_own_nxdl_child_go name rest
    else if child.localname = "doc" && name = "doc" then
      .ok (some child)
    else if child.localname = "enumeration" && name = "enumeration" then
      .ok (some child)
    else
      get_own_nxdl_child_go name rest

/-- get_own_nxdl_child (read_nexus.py lines 87-105): first child of the
element matching the lookup name, searching only the element's own
children. -/
def get_own_nxdl_child (nxdlElem : XElem) (name : String) : Except PyErr (Option XElem) :=
  get_own_nxdl_child_go name nxdlElem.children

/-- get_nxdl_child (read_nexus.py lines 108-125).  `baseEnv` models
`objectify.parse(\x27definitions/base_classes/\x27 + bc_name + \x27.nxdl.xml\x27).getroot()`,
returning the root of the independently parsed base-class document for a
class name.  The guard `if ownChild:` applies Python truthiness to the
element, so a matching but falsy (childless, empty-text) own child falls
through to the base-class search.  The subscript `bc_name[2]` raises
IndexError on class names shorter than three characters. -/
def get_nxdl_child (baseEnv : String → XElem) (nxdlElem : XElem) (name : String) :
    Except PyErr (Option XElem) :=
  match get_own_nxdl_child nxdlElem name with
  | .error e => .error e
  | .ok ownChild =>
    if ownChildTruthy ownChild then .ok ownChild
    else
      let bc_name := get_nx_class nxdlElem
      match bc_name.data.get? 2 with
      | none => .error .indexError
      | some ch =>
        if ch = '_' then .ok none
        else get_own_nxdl_child (baseEnv bc_name) name

/-- get_required_string (read_nexus.py lines 128-150). -/
def get_required_string (nxdlElem : Option XElem) : String :=
  match nxdlElem with
  | none => "<<NOT IN SCHEMA>>"
  | some e =>
    if (attrGet e "optional" = some "true") || (attrGet e "minOccurs" = some "0") then
      "<<OPTIONAL>>"
    else if attrGet e "recommended" = some "true" then
      "<<RECOMMENDED>>"
    else if isSubstring "base_classes".data e.base.data || (attrGet e "required" = some "false") then
      "<<OPTIONAL>>"
    else
      "<<REQUIRED>>"

/-- Modelled from the spec: `nexus.get_enums` is imported from the
`nexusparser.tools.nexus` module, which is not under src/.  Per the spec
(section 3, Enumeration Constraint) an enumeration is an ordered sequence of
permitted literal string values attached to a field/attribute node, and per
the enumeration listing of read_nexus.get_nxdl_doc (lines 280-285) the values
are the `value` attributes of the `item` children of the node's
`enumeration` child.  Returns (whether the node declares an enumeration, the
list of declared values). -/
def get_enums (elem : XElem) : Bool × List String :=
  match elem.children.find? (fun c => c.localname = "enumeration") with
  | some en =>
    (true, en.children.filterMap (fun it =>
      if it.localname = "item" then attrGet it "value" else none))
  | none => (false, [])

/-- is_value_valid_element_of_enum (helpers.py lines 81-87). -/
def is_value_valid_element_of_enum (value : PyVal) (elem : Option XElem) :
    Bool × List String :=
  match elem with
  | none => (true, [])
  | some e =>
    let he := get_enums e
    if he.1 &&
        (pyIsList value || !((he.2.dropLast).any (fun s => pyEqStr value s)) ||
          pyEqStr value "") then
      (false, he.2)
    else
      (true, [])

/-- A populated template: a Python dict from data-converter paths to values,
modelled as an association list in insertion order with unique keys. -/
def DataDict := List (String × PyVal)

/-- Python dict subscript `data[key]`: the value at the key, or KeyError. -/
def dictGet (data : DataDict) (key : String) : Except PyErr PyVal :=
  match data.lookup key with
  | some v => .ok v
  | none => .error (.keyError key)

/-- path_in_data_dict (helpers.py lines 157-162): the first dict key whose
schema-notation conversion equals the given path, as (found, key). -/
def path_in_data_dict (nxdl_path : String) (data : DataDict) : Bool × String :=
  match data.find? (fun kv => convert_data_converter_dict_to_nxdl_path kv.1 = nxdl_path) with
  | some kv => (true, kv.1)
  | none => (false, "")

/-- Characters strictly before the last slash of a list that contains a
slash. -/
def dropAfterLastSlash : List Char → List Char
  | [] => []
  | c :: rest =>
    if rest.contains '/' then c :: dropAfterLastSlash rest else []

/-- Python `path.rsplit("/", 1)[0]`: the characters before the last slash,
or the whole string when it contains no slash. -/
def parentOf (path : String) : String :=
  if path.data.contains '/' then String.mk (dropAfterLastSlash path.data)
  else path

/-- Membership test `in ("<<OPTIONAL>>", "<<RECOMMENDED>>")` of helpers.py
line 175. -/
def isOptionalOrRecommended (s : String) : Bool :=
  s = "<<OPTIONAL>>" || s = "<<RECOMMENDED>>"

/-- Requiredness of the schema node resolved at the schema-notation
conversion of a template path (helpers.py lines 172-175, 206-208): `getNode`
models `nexus.get_node_at_nxdl_path` applied to the fixed `nxdl_root`. -/
def classifyPath (getNode : String → Option XElem) (p : String) : String :=
  get_required_string (getNode (convert_data_converter_dict_to_nxdl_path p))

/-- check_for_optional_parent (helpers.py lines 165-178), with explicit fuel:
the Python function recurses on the parent path, which is strictly shorter
whenever the path contains a slash, and recurses forever (RecursionError)
otherwise. -/
def check_for_optional_parent_fuel (getNode : String → Option XElem) :
    Nat → String → Except PyErr String
  | 0, _ => .error .recursionError
  | fuel + 1, path =>
    if parentOf path = "" then
      .ok "<<NOT_FOUND>>"
    else if isOptionalOrRecommended (classifyPath getNode (parentOf path)) then
      .ok (parentOf path)
    else
      check_for_optional_parent_fuel getNode fuel (parentOf path)

/-- check_for_optional_parent at its natural fuel: one step per character
suffices for every terminating run of the Python original. -/
def check_for_optional_parent (getNode : String → Option XElem) (path : String) :
    Except PyErr String :=
  check_for_optional_parent_fuel getNode (path.data.length + 1) path

/-- check_are_children_set (helpers.py lines 181-190): some dict entry whose
schema-notation key contains the converted parent path as a substring holds
a non-None value. -/
def check_are_children_set (optional_parent_path : String) (data : DataDict) : Bool :=
  let opp := convert_data_converter_dict_to_nxdl_path optional_parent_path
  data.any (fun kv =>
    isSubstring opp.data (convert_data_converter_dict_to_nxdl_path kv.1).data &&
      !(pyIsNone kv.2))

/-- Python `path[path.rindex(\x27/\x27) + 1:]`: the characters after the last
slash; `rindex` raises ValueError when the path has no slash. -/
def afterLastSlash (path : String) : Except PyErr String :=
  if path.data.contains '/' then
    .ok (String.mk ((path.data.reverse.takeWhile (fun c => c ≠ '/')).reverse))
  else
    .error .valueError

/-- Message of the missing-required Exception of helpers.py lines 213-214;
the Python conditional expression falls back to the template path when the
renamed path is the empty (falsy) string. -/
def missingRequiredMsg (renamed_path path : String) : String :=
  "The data entry, " ++ (if renamed_path = "" then path else renamed_path) ++
    ", is required and hasn\x27t been supplied by the reader."

/-- Python repr of a list of strings, as interpolated into the enum
Exception message. -/
def pyStrListRepr (xs : List String) : String :=
  "[" ++ String.intercalate ", " (xs.map (fun s => "\x27" ++ s ++ "\x27")) ++ "]"

/-- Message of the enum Exception of helpers.py lines 222-223. -/
def enumMsg (renamed_path : String) (enums : List String) : String :=
  "The value at " ++ renamed_path ++ " should be one of the following strings: " ++
    pyStrListRepr enums

/-- The required-and-missing conditional of validate_data_dict (helpers.py
lines 208-214): when the node is required and the matching entry is missing
or None, raise the missing-required Exception unless a populated-free
optional ancestor suppresses it.  `getNode` models
`nexus.get_node_at_nxdl_path` applied to the fixed `nxdl_root`. -/
def requiredStep (getNode : String → Option XElem) (data : DataDict) (path : String)
    (is_path_in_data_dict : Bool) (renamed_path : String) (elem : Option XElem) :
    Except PyErr Unit :=
  if get_required_string elem = "<<REQUIRED>>" then
    let missingE : Except PyErr Bool :=
      if is_path_in_data_dict = false then .ok true
      else
        match dictGet data renamed_path with
        | .error e => .error e
        | .ok v => .ok (pyIsNone v)
    match missingE with
    | .error e => .error e
    | .ok missing =>
      if missing then
        match check_for_optional_parent getNode path with
        | .error e => .error e
        | .ok optional_parent =>
          if optional_parent = "<<NOT_FOUND>>" ||
              check_are_children_set optional_parent data then
            .error (.exception (missingRequiredMsg renamed_path path))
          else .ok ()
      else .ok ()
  else .ok ()

/-- Attribute read `elem.attrib["type"] if "type" in elem.attrib.keys() else
"NXDL_TYPE_UNAVAILABLE"` of helpers.py line 216; on a null element the
attribute access raises AttributeError. -/
def nxdlTypeOf : Option XElem → Except PyErr String
  | none => .error .attributeError
  | some e => .ok ((attrGet e "type").getD "NXDL_TYPE_UNAVAILABLE")

/-- The value-checking conditional of validate_data_dict (helpers.py lines
218-223): a present non-None value runs the type/value checker and the enum
check. -/
def valueStep (data : DataDict) (is_path_in_data_dict : Bool) (renamed_path : String)
    (nxdl_type : String) (elem : Option XElem) : Except PyErr Unit :=
  if is_path_in_data_dict then
    match dictGet data renamed_path with
    | .error e => .error e
    | .ok v =>
      if pyIsNone v = false then
        match is_valid_data_field v nxdl_type renamed_path with
        | .error e => .error e
        | .ok _ =>
          let en := is_value_valid_element_of_enum v elem
          if en.1 = false then .error (.exception (enumMsg renamed_path en.2))
          else .ok ()
      else .ok ()
  else .ok ()

/-- Loop body of validate_data_dict over the template paths (helpers.py
lines 198-223).  `getNode` models `nexus.get_node_at_nxdl_path` applied to
the fixed `nxdl_root` (the module `nexusparser.tools.nexus` is not under
src/; the spec's Schema Navigator, section 4.2, resolves a schema-notation
path to a schema node or null). -/
def validate_go (getNode : String → Option XElem) (data : DataDict) :
    List String → Except PyErr Bool
  | [] => .ok true
  | path :: rest =>
    let nxdl_path := convert_data_converter_dict_to_nxdl_path path
    let pr := path_in_data_dict nxdl_path data
    match afterLastSlash path with
    | .error e => .error e
    | .ok lastSeg =>
      let entry_name := get_name_from_data_dict_entry lastSeg
      match entry_name.data.head? with
      | none => .error .indexError
      | some c0 =>
        if c0 = '@' then
          validate_go getNode data rest
        else
          let elem := getNode nxdl_path
          match requiredStep getNode data path pr.1 pr.2 elem with
          | .error e => .error e
          | .ok _ =>
            match nxdlTypeOf elem with
            | .error e => .error e
            | .ok nxdl_type =>
              match valueStep data pr.1 pr.2 nxdl_type elem with
              | .error e => .error e
              | .ok _ => validate_go getNode data rest

/-- validate_data_dict (helpers.py lines 193-225).  The nxdl_root argument
is `none` when the NXDL file has not been loaded, and otherwise carries the
schema-navigation function for that root. -/
def validate_data_dict (template : List String) (data : DataDict)
    (nxdl_root : Option (String → Option XElem)) : Except PyErr Bool :=
  match nxdl_root with
  | none => .error (.exception "The NXDL file hasn\x27t been loaded.")
  | some getNode => validate_go getNode data template

/-- A field element carrying the enumeration a, b, c, used as the concrete
node of the enum-boundary checks. -/
def enumElemABC : XElem :=
  .mk "field" [("name", "mode")] "applications/NXtest.nxdl.xml" ""
    [.mk "enumeration" [] "applications/NXtest.nxdl.xml" ""
      [.mk "item" [("value", "a")] "applications/NXtest.nxdl.xml" "" [],
       .mk "item" [("value", "b")] "applications/NXtest.nxdl.xml" "" [],
       .mk "item" [("value", "c")] "applications/NXtest.nxdl.xml" "" []]]

lemma allE_map_vInt (ns : List Int) :
    check_all_children_for_callableE (ns.map PyVal.vInt) is_greater_than =
      .ok (ns.all (fun n => decide (0 < n))) := by
  induction ns with
  | nil => rfl
  | cons n rest ih =>
    by_cases h : (0 : Int) < n
    · simp [check_all_children_for_callableE, is_greater_than, pyGtZeroScalar, h, ih]
    · simp [check_all_children_for_callableE, is_greater_than, pyGtZeroScalar, h]

lemma type_ok_map_vInt (ns : List Int) :
    check_all_children_for_callable (ns.map PyVal.vInt)
      (fun v => isinstAny v [.int, .ndarray, .npSignedInteger]) = true := by
  induction ns with
  | nil => rfl
  | cons n rest ih =>
    simpa [check_all_children_for_callable, isinstAny, isinst] using ih

lemma type_ok_map_vStr (ss : List String) :
    check_all_children_for_callable (ss.map PyVal.vStr)
      (fun v => isinstAny v [.str]) = true := by
  induction ss with
  | nil => rfl
  | cons s rest ih =>
    simpa [check_all_children_for_callable, isinstAny, isinst] using ih

/-- C4: the claim reads "validation fails with RangeError unless the scalar
value, or every element of an array-like value taken in flattened order, is
strictly greater than zero".  The code checks only the first flattened
element of an ndarray: this array has the non-positive element -1 in
flattened order, yet the NX_POSINT check passes. -/
theorem C4_counterexample :
    is_valid_data_field (.vNdarray false [.vInt 5, .vInt (-1)]) "NX_POSINT"
      "/ENTRY[entry]/count" = .ok () := rfl

/-- C4 amended: under NX_POSINT, a scalar int or numpy signed-integer fails
with the RangeError exception unless it is strictly positive; an ndarray is
judged by its first flattened element only — RangeError unless that element
is strictly positive when it is an int (later elements are not inspected),
TypeError from the `>` comparison when it is a string, IndexError when the
array is empty; a Python list of ints fails unless every element is
strictly positive. -/
theorem C4_posint_amended :
    (∀ (p : String) (n : Int),
        is_valid_data_field (.vInt n) "NX_POSINT" p =
          if 0 < n then .ok () else .error (.exception (posIntMsg p))) ∧
    (∀ (p : String) (k : NpIntKind) (n : Int),
        is_valid_data_field (.vNpSigned k n) "NX_POSINT" p =
          if 0 < n then .ok () else .error (.exception (posIntMsg p))) ∧
    (∀ (p : String) (c : Bool) (n : Int) (rest : List PyVal),
        is_valid_data_field (.vNdarray c (.vInt n :: rest)) "NX_POSINT" p =
          if 0 < n then .ok () else .error (.exception (posIntMsg p))) ∧
    (∀ (p : String) (c : Bool) (s : String) (rest : List PyVal),
        is_valid_data_field (.vNdarray c (.vStr s :: rest)) "NX_POSINT" p =
          .error (.typeError "TypeError: not supported between instances")) ∧
    (∀ (p : String) (c : Bool),
        is_valid_data_field (.vNdarray c []) "NX_POSINT" p = .error .indexError) ∧
    (∀ (p : String) (ns : List Int),
        is_valid_data_field (.vList (ns.map PyVal.vInt)) "NX_POSINT" p =
          if ns.all (fun n => decide (0 < n)) then .ok ()
          else .error (.exception (posIntMsg p))) := by
  refine ⟨fun p n => ?_, fun p k n => ?_, fun p c n rest => ?_,
    fun p c s rest => rfl, fun p c => rfl, fun p ns => ?_⟩
  · by_cases h : (0 : Int) < n <;>
      simp [is_valid_data_field, posintStep, dateStep, is_positive_int, pyGtZeroScalar,
        NEXUS_TO_PYTHON_DATA_TYPES, List.lookup, is_valid_data_type, isinstAny, isinst, h]
  · by_cases h : (0 : Int) < n <;>
      simp [is_valid_data_field, posintStep, dateStep, is_positive_int, pyGtZeroScalar,
        NEXUS_TO_PYTHON_DATA_TYPES, List.lookup, is_valid_data_type, isinstAny, isinst, h]
  · by_cases h : (0 : Int) < n <;>
      simp [is_valid_data_field, posintStep, dateStep, is_positive_int, pyGtZeroScalar,
        NEXUS_TO_PYTHON_DATA_TYPES, List.lookup, is_valid_data_type, isinstAny, isinst, h]
  · by_cases h : ns.all (fun n => decide (0 < n)) <;>
      simp [is_valid_data_field, posintStep, dateStep, is_positive_int,
        NEXUS_TO_PYTHON_DATA_TYPES, List.lookup, is_valid_data_type,
        type_ok_map_vInt, allE_map_vInt, h]

/-- C5: the NX_POSINT check inspects only the first element in flattened
order for an ndarray value: scalar 0 fails with the RangeError exception,
scalar 1 passes, and an array whose first flattened element is 5 passes
regardless of the later elements. -/
theorem C5_posint_first_element_only :
    (∀ p : String, is_valid_data_field (.vInt 0) "NX_POSINT" p =
        .error (.exception (posIntMsg p))) ∧
    (∀ p : String, is_valid_data_field (.vInt 1) "NX_POSINT" p = .ok ()) ∧
    (∀ (p : String) (c : Bool) (rest : List PyVal),
        is_valid_data_field (.vNdarray c (.vInt 5 :: rest)) "NX_POSINT" p = .ok ()) := by
  refine ⟨fun p => rfl, fun p => rfl, fun p c rest => rfl⟩

/-- C6: the claim reads "for every value checked under ISO8601 or
NX_DATE_TIME, validation fails with FormatError unless the value matches"
the timestamp pattern.  A list of strings passes the type check (every
element is a str) but the regex search then raises TypeError, not the
FormatError exception, even though a list never matches the pattern. -/
theorem C6_counterexample :
    is_valid_data_field (.vList [.vStr "2022-01-22T12:14:12Z"]) "NX_DATE_TIME"
      "/ENTRY[entry]/start_time" = .error (.typeError reSearchTypeErrMsg) := rfl

/-- C6 amended: for every string value checked under ISO8601 or
NX_DATE_TIME, validation fails with the FormatError exception exactly when
the value does not match the timezone-aware pattern (with the -00:00 offset
rejected); a list value instead raises TypeError from the regex search.  The
four boundary examples behave as the claim states. -/
theorem C6_timestamp_amended :
    (∀ (p s : String), is_valid_data_field (.vStr s) "NX_DATE_TIME" p =
        if iso8601Search s then .ok () else .error (.exception (dateMsg p))) ∧
    (∀ (p s : String), is_valid_data_field (.vStr s) "ISO8601" p =
        if iso8601Search s then .ok () else .error (.exception (dateMsg p))) ∧
    (∀ (p : String) (ss : List String),
        is_valid_data_field (.vList (ss.map PyVal.vStr)) "NX_DATE_TIME" p =
          .error (.typeError reSearchTypeErrMsg)) ∧
    iso8601Search "2022-01-22T12:14:12.05018Z" = true ∧
    iso8601Search "2022-01-22T12:14:12.05018-00:00" = false ∧
    iso8601Search "2022-01-22T12:14:12+02:00" = true ∧
    iso8601Search "2022-01-22T12:14:12" = false := by
  refine ⟨fun p s => ?_, fun p s => ?_, fun p ss => ?_, rfl, rfl, rfl, rfl⟩
  · by_cases h : iso8601Search s <;>
      simp [is_valid_data_field, posintStep, dateStep, reSearchIso8601,
        NEXUS_TO_PYTHON_DATA_TYPES, List.lookup, is_valid_data_type, isinstAny, isinst, h]
  · by_cases h : iso8601Search s <;>
      simp [is_valid_data_field, posintStep, dateStep, reSearchIso8601,
        NEXUS_TO_PYTHON_DATA_TYPES, List.lookup, is_valid_data_type, isinstAny, isinst, h]
  · simp [is_valid_data_field, posintStep, dateStep, reSearchIso8601,
      NEXUS_TO_PYTHON_DATA_TYPES, List.lookup, is_valid_data_type, type_ok_map_vStr]

/-- C8: the claim reads "for every declared NeXus type that is not among the
fixed known type tags, it treats the value as string-like: a string value
under an unknown declared type passes the type check".  A declared type
absent from the table instead raises KeyError at the dict subscript. -/
theorem C8_counterexample :
    is_valid_data_field (.vStr "abc") "NX_SOME_UNKNOWN_TYPE" "/ENTRY[entry]/field" =
      .error (.keyError "NX_SOME_UNKNOWN_TYPE") := rfl

/-- C8 amended: for a declared type present in the fixed table, a value
failing the accepted-types check fails with the TypeMismatchError exception;
only the missing-type sentinel NXDL_TYPE_UNAVAILABLE is treated as
string-like (a string passes); a declared type absent from the table raises
KeyError at the table lookup instead of being treated as string-like. -/
theorem C8_type_check_amended :
    (∀ (v : PyVal) (t p : String), NEXUS_TO_PYTHON_DATA_TYPES.lookup t = none →
        is_valid_data_field v t p = .error (.keyError t)) ∧
    (∀ (s p : String),
        is_valid_data_field (.vStr s) "NXDL_TYPE_UNAVAILABLE" p = .ok ()) ∧
    (∀ (v : PyVal) (t p : String) (cs : List PyClass),
        NEXUS_TO_PYTHON_DATA_TYPES.lookup t = some cs →
        is_valid_data_type v cs = false →
        is_valid_data_field v t p = .error (.exception (typeMismatchMsg p cs t))) := by
  refine ⟨fun v t p h => ?_, fun s p => rfl, fun v t p cs h1 h2 => ?_⟩
  · simp [is_valid_data_field, h]
  · simp [is_valid_data_field, h1, h2]

theorem C8_witness :
    NEXUS_TO_PYTHON_DATA_TYPES.lookup "NX_COMPLEX" = none ∧
    is_valid_data_field (.vStr "a") "NX_COMPLEX" "/ENTRY[entry]/f" =
      .error (.keyError "NX_COMPLEX") :=
  ⟨rfl, C8_type_check_amended.1 (.vStr "a") "NX_COMPLEX" "/ENTRY[entry]/f" rfl⟩

/-- C9: the claim reads that on malformed input (an empty path or a path
with a trailing slash) the conversions fail with MalformedPathError.  The
source has no raise statement and no failing operation on any str input:
both conversions return normally on the empty path. -/
theorem C9_counterexample :
    convert_data_converter_dict_to_nxdl_path "" = "" ∧
    convert_data_dict_path_to_hdf5_path "" = "" := ⟨rfl, rfl⟩

/-- C9 amended: the two path conversions are total functions with no
exception path on any input; on the documented inputs they convert as
specified, and on malformed input (empty path, trailing slash) they return
normally, keeping the empty final segment of a trailing slash. -/
theorem C9_path_conversions_amended :
    convert_data_converter_dict_to_nxdl_path "/ENTRY[entry]/sample" = "/ENTRY/sample" ∧
    convert_data_dict_path_to_hdf5_path "/ENTRY[entry]/sample" = "/entry/sample" ∧
    convert_data_converter_dict_to_nxdl_path "/a/" = "/a/" ∧
    convert_data_dict_path_to_hdf5_path "/a/" = "/a/" ∧
    convert_data_converter_dict_to_nxdl_path "/ENTRY[my_entry]/NXODD_name[odd_name]/bool_value"
      = "/ENTRY/NXODD_name/bool_value" := by
  refine ⟨rfl, rfl, rfl, rfl, rfl⟩

/-- C10: every NeXus type tag whose accepted tuple contains np.ndarray
accepts any non-list ndarray value at the type check regardless of element
dtype; in particular an ndarray of strings passes the full NX_FLOAT field
check. -/
theorem C10_ndarray_dtype_ignored :
    (∀ t : String,
        t ∈ ["NX_BINARY", "NX_BOOLEAN", "NX_CHAR", "NX_FLOAT", "NX_INT", "NX_UINT",
              "NX_NUMBER", "NX_POSINT"] →
        ∀ cs : List PyClass, NEXUS_TO_PYTHON_DATA_TYPES.lookup t = some cs →
        ∀ (c : Bool) (flat : List PyVal),
          is_valid_data_type (.vNdarray c flat) cs = true) ∧
    (∀ p : String,
        is_valid_data_field (.vNdarray false [.vStr "x"]) "NX_FLOAT" p = .ok ()) := by
  constructor
  · intro t ht cs hcs c flat
    simp only [List.mem_cons, List.mem_singleton] at ht
    rcases ht with rfl | rfl | rfl | rfl | rfl | rfl | rfl | rfl | h
    · rw [show NEXUS_TO_PYTHON_DATA_TYPES.lookup "NX_BINARY" =
          some [.bytes, .bytearray, .npByte, .npUbyte, .ndarray] from rfl] at hcs
      cases hcs; simp [is_valid_data_type, isinstAny, isinst]
    · rw [show NEXUS_TO_PYTHON_DATA_TYPES.lookup "NX_BOOLEAN" =
          some [.bool, .ndarray, .npBool] from rfl] at hcs
      cases hcs; simp [is_valid_data_type, isinstAny, isinst]
    · rw [show NEXUS_TO_PYTHON_DATA_TYPES.lookup "NX_CHAR" =
          some [.str, .ndarray, .npChararray] from rfl] at hcs
      cases hcs; simp [is_valid_data_type, isinstAny, isinst]
    · rw [show NEXUS_TO_PYTHON_DATA_TYPES.lookup "NX_FLOAT" =
          some [.float, .ndarray, .npFloating] from rfl] at hcs
      cases hcs; simp [is_valid_data_type, isinstAny, isinst]
    · rw [show NEXUS_TO_PYTHON_DATA_TYPES.lookup "NX_INT" =
          some [.int, .ndarray, .npSignedInteger] from rfl] at hcs
      cases hcs; simp [is_valid_data_type, isinstAny, isinst]
    · rw [show NEXUS_TO_PYTHON_DATA_TYPES.lookup "NX_UINT" =
          some [.ndarray, .npUnsignedInteger] from rfl] at hcs
      cases hcs; simp [is_valid_data_type, isinstAny, isinst]
    · rw [show NEXUS_TO_PYTHON_DATA_TYPES.lookup "NX_NUMBER" =
          some [.int, .float, .ndarray, .npSignedInteger, .npUnsignedInteger,
            .npFloating] from rfl] at hcs
      cases hcs; simp [is_valid_data_type, isinstAny, isinst]
    · rw [show NEXUS_TO_PYTHON_DATA_TYPES.lookup "NX_POSINT" =
          some [.int, .ndarray, .npSignedInteger] from rfl] at hcs
      cases hcs; simp [is_valid_data_type, isinstAny, isinst]
    · exact absurd h (by simp)
  · intro p
    rfl

theorem C10_witness :
    ("NX_FLOAT" ∈ ["NX_BINARY", "NX_BOOLEAN", "NX_CHAR", "NX_FLOAT", "NX_INT", "NX_UINT",
        "NX_NUMBER", "NX_POSINT"]) ∧
    is_valid_data_type (.vNdarray true [.vStr "a", .vStr "b"])
      [.float, .ndarray, .npFloating] = true :=
  ⟨by simp, C10_ndarray_dtype_ignored.1 "NX_FLOAT" (by simp)
    [.float, .ndarray, .npFloating] rfl true [.vStr "a", .vStr "b"]⟩

/-- C7: for a node declaring an enumeration, the enum check marks a value
invalid exactly when the value is a list, or is not found among all declared
entries except the last one, or is the empty string; for enumeration
a, b, c the boundary examples behave as stated, and a node without an
enumeration (or a null node) always passes.  The helper `get_enums` is
modelled from the spec since `nexusparser.tools.nexus` is not under src/. -/
theorem C7_enum_check :
    (∀ (e : XElem) (v : PyVal), (get_enums e).1 = true →
        ((is_value_valid_element_of_enum v (some e)).1 = false ↔
          (pyIsList v = true ∨
            ((get_enums e).2.dropLast).any (fun s => pyEqStr v s) = false ∨
            pyEqStr v "" = true))) ∧
    (∀ (e : XElem) (v : PyVal), (get_enums e).1 = false →
        is_value_valid_element_of_enum v (some e) = (true, [])) ∧
    (∀ v : PyVal, is_value_valid_element_of_enum v none = (true, [])) ∧
    (is_value_valid_element_of_enum (.vStr "a") (some enumElemABC)).1 = true ∧
    (is_value_valid_element_of_enum (.vStr "c") (some enumElemABC)).1 = false ∧
    (is_value_valid_element_of_enum (.vStr "") (some enumElemABC)).1 = false ∧
    (is_value_valid_element_of_enum (.vList [.vStr "a"]) (some enumElemABC)).1 = false := by
  refine ⟨fun e v h => ?_, fun e v h => ?_, fun v => rfl, rfl, rfl, rfl, rfl⟩
  · cases hp : pyIsList v <;>
      cases ha : ((get_enums e).2.dropLast).any (fun s => pyEqStr v s) <;>
      cases hq : pyEqStr v "" <;>
      simp [is_value_valid_element_of_enum, h, hp, ha, hq]
  · simp [is_value_valid_element_of_enum, h]

theorem C7_witness :
    (get_enums enumElemABC).1 = true ∧
    ((is_value_valid_element_of_enum (.vStr "zzz") (some enumElemABC)).1 = false ↔
      (pyIsList (.vStr "zzz") = true ∨
        ((get_enums enumElemABC).2.dropLast).any (fun s => pyEqStr (.vStr "zzz") s) = false ∨
        pyEqStr (.vStr "zzz") "" = true)) :=
  ⟨rfl, C7_enum_check.1 enumElemABC (.vStr "zzz") rfl⟩

/-- A field element with empty attribute map whose resolved definition
originates from a base-class document. -/
def baseClassElem : XElem :=
  .mk "field" [] "definitions/base_classes/NXentry.nxdl.xml" "" []

/-- A field element with empty attribute map defined in an application
definition document. -/
def appDefElem : XElem :=
  .mk "field" [] "definitions/applications/NXarpes.nxdl.xml" "" []

/-- C2: get_required_string is total into the four classification strings,
maps a null node to NOT IN SCHEMA, and applies the rules in source order
with first match winning: optional=true or minOccurs=0 gives OPTIONAL, then
recommended=true gives RECOMMENDED, then base-class origin or required=false
gives OPTIONAL, otherwise REQUIRED; in particular a node with no optionality
attributes classifies OPTIONAL in a base-class document and REQUIRED in an
application definition. -/
theorem C2_classify_total_and_rules :
    (∀ e : Option XElem, get_required_string e ∈
        ["<<REQUIRED>>", "<<OPTIONAL>>", "<<RECOMMENDED>>", "<<NOT IN SCHEMA>>"]) ∧
    get_required_string none = "<<NOT IN SCHEMA>>" ∧
    (∀ e : XElem,
        (attrGet e "optional" = some "true" ∨ attrGet e "minOccurs" = some "0") →
        get_required_string (some e) = "<<OPTIONAL>>") ∧
    (∀ e : XElem,
        ¬(attrGet e "optional" = some "true") → ¬(attrGet e "minOccurs" = some "0") →
        attrGet e "recommended" = some "true" →
        get_required_string (some e) = "<<RECOMMENDED>>") ∧
    (∀ e : XElem,
        ¬(attrGet e "optional" = some "true") → ¬(attrGet e "minOccurs" = some "0") →
        ¬(attrGet e "recommended" = some "true") →
        (isSubstring "base_classes".data e.base.data = true ∨
          attrGet e "required" = some "false") →
        get_required_string (some e) = "<<OPTIONAL>>") ∧
    (∀ e : XElem,
        ¬(attrGet e "optional" = some "true") → ¬(attrGet e "minOccurs" = some "0") →
        ¬(attrGet e "recommended" = some "true") →
        isSubstring "base_classes".data e.base.data = false →
        ¬(attrGet e "required" = some "false") →
        get_required_string (some e) = "<<REQUIRED>>") ∧
    (∀ e : XElem, e.attrib = [] →
        isSubstring "base_classes".data e.base.data = true →
        get_required_string (some e) = "<<OPTIONAL>>") ∧
    (∀ e : XElem, e.attrib = [] →
        isSubstring "base_classes".data e.base.data = false →
        get_required_string (some e) = "<<REQUIRED>>") := by
  refine ⟨fun e => ?_, rfl, fun e h => ?_, fun e h1 h2 h3 => ?_,
    fun e h1 h2 h3 h4 => ?_, fun e h1 h2 h3 h4 h5 => ?_,
    fun e h1 h2 => ?_, fun e h1 h2 => ?_⟩
  · cases e with
    | none => simp [get_required_string]
    | some e =>
      simp only [get_required_string]
      split_ifs <;> simp
  · rcases h with h | h <;> simp [get_required_string, h]
  · simp [get_required_string, h1, h2, h3]
  · rcases h4 with h4 | h4 <;> simp [get_required_string, h1, h2, h3, h4]
  · simp [get_required_string, h1, h2, h3, h4, h5]
  · simp [get_required_string, attrGet, h1, h2]
  · simp [get_required_string, attrGet, h1, h2]

theorem C2_witness :
    (baseClassElem.attrib = [] ∧
      isSubstring "base_classes".data baseClassElem.base.data = true ∧
      get_required_string (some baseClassElem) = "<<OPTIONAL>>") ∧
    (appDefElem.attrib = [] ∧
      isSubstring "base_classes".data appDefElem.base.data = false ∧
      get_required_string (some appDefElem) = "<<REQUIRED>>") :=
  ⟨⟨rfl, rfl, C2_classify_total_and_rules.2.2.2.2.2.2.1 baseClassElem rfl rfl⟩,
   ⟨rfl, rfl, C2_classify_total_and_rules.2.2.2.2.2.2.2 appDefElem rfl rfl⟩⟩

/-- A sample group child, carrying a doc child element so that it is truthy
under content-based element truthiness. -/
def sampleGroup : XElem :=
  .mk "group" [("type", "NXsample"), ("name", "sample")] "applications/NXtest.nxdl.xml" ""
    [.mk "doc" [] "applications/NXtest.nxdl.xml" "The sample." []]

/-- An entry group owning the sample group child. -/
def appEntryElem : XElem :=
  .mk "group" [("type", "NXentry")] "applications/NXtest.nxdl.xml" "" [sampleGroup]

/-- A base-class environment mapping every class name to an empty definition
root. -/
def emptyBaseEnv : String → XElem :=
  fun _ => .mk "definition" [] "definitions/base_classes/unknown.nxdl.xml" "" []

/-- A childless, empty-text field child, as ubiquitous in NXDL documents;
it matches its name but tests False under element truthiness. -/
def emptyFieldChild : XElem :=
  .mk "field" [("name", "title"), ("type", "NX_CHAR")] "applications/NXtest.nxdl.xml" "" []

/-- An entry group whose only child is the falsy title field. -/
def shallowEntryElem : XElem :=
  .mk "group" [("type", "NXentry")] "applications/NXtest.nxdl.xml" "" [emptyFieldChild]

/-- A truthy title field as defined in a base-class document. -/
def baseTitleField : XElem :=
  .mk "field" [("name", "title"), ("type", "NX_CHAR")]
    "definitions/base_classes/NXentry.nxdl.xml" ""
    [.mk "doc" [] "definitions/base_classes/NXentry.nxdl.xml" "The title." []]

/-- A base-class environment whose every document root carries the truthy
title field. -/
def titleBaseEnv : String → XElem :=
  fun _ => .mk "definition" [] "definitions/base_classes/NXentry.nxdl.xml" ""
    [baseTitleField]

/-- C3: the claim reads that when a matching child exists among the node's
own immediate children, resolution returns that child without loading any
base-class document.  The guard `if ownChild:` applies Python truthiness to
the lxml element, so the matching but childless, empty-text own field is
skipped and the base-class document is consulted instead: with one
environment the lookup returns the base-class field, with another it
returns null — never the matching own child. -/
theorem C3_counterexample :
    get_own_nxdl_child shallowEntryElem "title" = .ok (some emptyFieldChild) ∧
    xelemTruthy emptyFieldChild = false ∧
    get_nxdl_child titleBaseEnv shallowEntryElem "title" = .ok (some baseTitleField) ∧
    get_nxdl_child emptyBaseEnv shallowEntryElem "title" = .ok none :=
  ⟨rfl, rfl, rfl, rfl⟩

/-- C3 amended: child resolution searches the node's own immediate children
first and, when a matching child exists there and is truthy (has child
elements or non-empty text), returns it without consulting the base-class
environment (the result is the same for every environment); when the own
search yields no match or only a falsy match, and the third character of the
declared class name is not the underscore sentinel, the base-class document
for that class is consulted with the same own-children search applied to its
root (so a miss there returns null); a primitive class (underscore sentinel)
returns null directly. -/
theorem C3_child_resolution_amended :
    (∀ (env : String → XElem) (e : XElem) (name : String) (oc : Option XElem),
        get_own_nxdl_child e name = .ok oc → ownChildTruthy oc = true →
        get_nxdl_child env e name = .ok oc) ∧
    (∀ (env : String → XElem) (e : XElem) (name : String) (oc : Option XElem),
        get_own_nxdl_child e name = .ok oc → ownChildTruthy oc = false →
        (get_nx_class e).data.get? 2 = some '_' →
        get_nxdl_child env e name = .ok none) ∧
    (∀ (env : String → XElem) (e : XElem) (name : String) (oc : Option XElem) (ch : Char),
        get_own_nxdl_child e name = .ok oc → ownChildTruthy oc = false →
        (get_nx_class e).data.get? 2 = some ch → ch ≠ '_' →
        get_nxdl_child env e name = get_own_nxdl_child (env (get_nx_class e)) name) := by
  refine ⟨fun env e name oc h ht => ?_, fun env e name oc h ht h2 => ?_,
    fun env e name oc ch h ht h2 h3 => ?_⟩
  · simp [get_nxdl_child, h, ht]
  · rw [List.get?_eq_getElem?] at h2
    simp [get_nxdl_child, h, ht, h2]
  · rw [List.get?_eq_getElem?] at h2
    simp [get_nxdl_child, h, ht, h2, h3]

theorem C3_witness :
    (get_own_nxdl_child appEntryElem "NXsample" = .ok (some sampleGroup) ∧
      ownChildTruthy (some sampleGroup) = true ∧
      get_nxdl_child emptyBaseEnv appEntryElem "NXsample" = .ok (some sampleGroup)) ∧
    (get_own_nxdl_child appEntryElem "voltage" = .ok none ∧
      ownChildTruthy (none : Option XElem) = false ∧
      (get_nx_class appEntryElem).data.get? 2 = some 'e' ∧
      get_nxdl_child emptyBaseEnv appEntryElem "voltage" =
        get_own_nxdl_child (emptyBaseEnv "NXentry") "voltage") :=
  ⟨⟨rfl, rfl,
    C3_child_resolution_amended.1 emptyBaseEnv appEntryElem "NXsample"
      (some sampleGroup) rfl rfl⟩,
   ⟨rfl, rfl, rfl,
    C3_child_resolution_amended.2.2 emptyBaseEnv appEntryElem "voltage"
      none 'e' rfl rfl rfl (by decide)⟩⟩

/-- Ancestors of a template path, nearest first, obtained by stripping one
trailing segment at a time until the parent is empty, with explicit fuel. -/
def ancestorChainFuel : Nat → String → List String
  | 0, _ => []
  | fuel + 1, p =>
    if parentOf p = "" then [] else parentOf p :: ancestorChainFuel fuel (parentOf p)

/-- Ancestors of a template path, nearest first. -/
def ancestorChain (p : String) : List String :=
  ancestorChainFuel (p.data.length + 1) p

/-- The amended suppression condition: some populated-template entry whose
schema-notation path contains the ancestor's schema-notation path as a
substring holds a non-None value. -/
def specHasPopulatedContaining (data : DataDict) (a : String) : Bool :=
  data.any (fun kv =>
    isSubstring (convert_data_converter_dict_to_nxdl_path a).data
      (convert_data_converter_dict_to_nxdl_path kv.1).data && !(pyIsNone kv.2))

/-- The claimed suppression condition: some populated-template entry whose
schema-notation path lies strictly below the ancestor's schema-notation path
(descendant in the path tree) holds a non-None value. -/
def specHasPopulatedDescendant (data : DataDict) (a : String) : Bool :=
  data.any (fun kv =>
    ((convert_data_converter_dict_to_nxdl_path a).data ++ ['/']).isPrefixOf
      (convert_data_converter_dict_to_nxdl_path kv.1).data && !(pyIsNone kv.2))

/-- The extracted name of the final segment of a template path, as computed
on helpers.py line 202 for a path containing a slash. -/
def lastSegmentName (p : String) : String :=
  get_name_from_data_dict_entry
    (String.mk ((p.data.reverse.takeWhile (fun c => c ≠ '/')).reverse))

lemma specHasPopulatedContaining_eq_check (data : DataDict) (a : String) :
    specHasPopulatedContaining data a = check_are_children_set a data := rfl

lemma dropAfterLastSlash_spec :
    ∀ cs : List Char, cs.contains '/' = true →
      ∃ w, cs = dropAfterLastSlash cs ++ '/' :: w ∧ w.contains '/' = false := by
  intro cs
  induction cs with
  | nil => intro h; simp at h
  | cons c rest ih =>
    intro h
    by_cases hr : rest.contains '/' = true
    · obtain ⟨w, hw, hnw⟩ := ih hr
      refine ⟨w, ?_, hnw⟩
      have hr' : '/' ∈ rest := by simpa using hr
      have hd : dropAfterLastSlash (c :: rest) = c :: dropAfterLastSlash rest := by
        simp [dropAfterLastSlash, hr']
      rw [hd, List.cons_append]
      exact congrArg (c :: ·) hw
    · have hr' : '/' ∉ rest := by simpa using hr
      have hc : c = '/' := by
        have h' := h
        simp only [List.contains_cons, Bool.or_eq_true, beq_iff_eq] at h'
        rcases h' with h1 | h1
        · exact h1.symm
        · exact absurd h1 hr
      refine ⟨rest, ?_, by simpa using hr'⟩
      have hd : dropAfterLastSlash (c :: rest) = [] := by
        simp [dropAfterLastSlash, hr']
      rw [hd, hc]
      rfl

lemma parentOf_data {p : String} (h : p.data.contains '/' = true) :
    (parentOf p).data = dropAfterLastSlash p.data := by
  unfold parentOf
  rw [if_pos h]

lemma parentOf_spec {p : String} (h : p.data.contains '/' = true) :
    ∃ w, p.data = (parentOf p).data ++ '/' :: w ∧ w.contains '/' = false := by
  rw [parentOf_data h]
  exact dropAfterLastSlash_spec p.data h

lemma parentOf_length_lt {p : String} (h : p.data.contains '/' = true) :
    (parentOf p).data.length < p.data.length := by
  obtain ⟨w, hw, -⟩ := parentOf_spec h
  have hlen := congrArg List.length hw
  simp only [List.length_append, List.length_cons] at hlen
  omega

lemma parentOf_head {p : String} (h : p.data.contains '/' = true)
    (hne : parentOf p ≠ "") : (parentOf p).data.head? = p.data.head? := by
  obtain ⟨w, hw, -⟩ := parentOf_spec h
  cases hdd : (parentOf p).data with
  | nil =>
    exfalso
    apply hne
    calc parentOf p = String.mk (parentOf p).data := rfl
      _ = String.mk [] := by rw [hdd]
      _ = "" := rfl
  | cons a t =>
    rw [hw, hdd]
    simp

lemma head_slash_contains {p : String} (h : p.data.head? = some '/') :
    p.data.contains '/' = true := by
  cases hd : p.data with
  | nil => rw [hd] at h; cases h
  | cons c t =>
    rw [hd] at h
    have hc : c = '/' := by simpa using h
    simp [List.contains_cons, hc]

lemma parentOf_head_slash {p : String} (h : p.data.head? = some '/')
    (hne : parentOf p ≠ "") : (parentOf p).data.head? = some '/' := by
  rw [parentOf_head (head_slash_contains h) hne]
  exact h

lemma ancestorChainFuel_mem_head :
    ∀ (fuel : Nat) (p : String), p.data.head? = some '/' →
      ∀ a ∈ ancestorChainFuel fuel p, a.data.head? = some '/' := by
  intro fuel
  induction fuel with
  | zero => intro p hp a ha; simp [ancestorChainFuel] at ha
  | succ fuel ih =>
    intro p hp a ha
    rw [ancestorChainFuel] at ha
    by_cases hq : parentOf p = ""
    · rw [if_pos hq] at ha; cases ha
    · rw [if_neg hq] at ha
      have hhead : (parentOf p).data.head? = some '/' := parentOf_head_slash hp hq
      rcases List.mem_cons.mp ha with rfl | ha'
      · exact hhead
      · exact ih (parentOf p) hhead a ha'

lemma cfop_fuel_eq_find (getNode : String → Option XElem) :
    ∀ (fuel : Nat) (p : String), p.data.head? = some '/' → p.data.length ≤ fuel →
      check_for_optional_parent_fuel getNode fuel p =
        (match (ancestorChainFuel fuel p).find?
            (fun a => isOptionalOrRecommended (classifyPath getNode a)) with
         | some a => .ok a
         | none => .ok "<<NOT_FOUND>>") := by
  intro fuel
  induction fuel with
  | zero =>
    intro p hp hl
    have hnil : p.data = [] := List.length_eq_zero.mp (Nat.le_zero.mp hl)
    rw [hnil] at hp
    cases hp
  | succ fuel ih =>
    intro p hp hl
    rw [check_for_optional_parent_fuel, ancestorChainFuel]
    by_cases hq : parentOf p = ""
    · rw [if_pos hq, if_pos hq]
      rfl
    · rw [if_neg hq, if_neg hq]
      have hcont := head_slash_contains hp
      have hhead : (parentOf p).data.head? = some '/' := parentOf_head_slash hp hq
      have hlen : (parentOf p).data.length ≤ fuel := by
        have := parentOf_length_lt hcont
        have hl' : p.data.length ≤ fuel + 1 := hl
        omega
      by_cases hopt : isOptionalOrRecommended (classifyPath getNode (parentOf p)) = true
      · rw [if_pos hopt, List.find?_cons]
        simp [hopt]
      · have hopt' : isOptionalOrRecommended (classifyPath getNode (parentOf p)) = false := by
          simpa using hopt
        rw [if_neg hopt, List.find?_cons]
        simpa [hopt'] using ih (parentOf p) hhead hlen

lemma string_head_slash_ne_not_found {a : String} (h : a.data.head? = some '/') :
    a ≠ "<<NOT_FOUND>>" := by
  intro hc
  subst hc
  exact absurd h (by decide)

/-- C1 amended: for a template path with leading slash whose final extracted
name is nonempty and not an attribute, classified REQUIRED with its matching
populated entry missing or None, validation of the one-path template raises
the missing-required exception if and only if either no ancestor of the path
is classified OPTIONAL or RECOMMENDED, or the nearest such ancestor has at
least one populated-template entry whose schema-notation path contains the
ancestor's schema-notation path as a substring with a non-None value (the
code tests substring containment, not descendant containment); otherwise
validation returns true.  `getNode` models `nexus.get_node_at_nxdl_path`
applied to the fixed root, which is not under src/. -/
theorem C1_required_suppression_amended
    (getNode : String → Option XElem) (data : DataDict) (P : String) (c0 : Char)
    (hhead : P.data.head? = some '/')
    (hn1 : (lastSegmentName P).data.head? = some c0)
    (hn2 : c0 ≠ '@')
    (hreq : classifyPath getNode P = "<<REQUIRED>>")
    (hmiss : (path_in_data_dict (convert_data_converter_dict_to_nxdl_path P) data).1 = false ∨
      data.lookup (path_in_data_dict (convert_data_converter_dict_to_nxdl_path P) data).2 =
        some PyVal.vNone) :
    (validate_data_dict [P] data (some getNode) =
        .error (.exception (missingRequiredMsg
          (path_in_data_dict (convert_data_converter_dict_to_nxdl_path P) data).2 P)) ↔
      ((∀ a ∈ ancestorChain P, isOptionalOrRecommended (classifyPath getNode a) = false) ∨
        ∃ A, (ancestorChain P).find?
            (fun a => isOptionalOrRecommended (classifyPath getNode a)) = some A ∧
          specHasPopulatedContaining data A = true)) ∧
    (¬ ((∀ a ∈ ancestorChain P, isOptionalOrRecommended (classifyPath getNode a) = false) ∨
        ∃ A, (ancestorChain P).find?
            (fun a => isOptionalOrRecommended (classifyPath getNode a)) = some A ∧
          specHasPopulatedContaining data A = true) →
      validate_data_dict [P] data (some getNode) = .ok true) := by
  have hcont : P.data.contains '/' = true := head_slash_contains hhead
  have hafter : afterLastSlash P =
      .ok (String.mk ((P.data.reverse.takeWhile (fun c => c ≠ '/')).reverse)) := by
    unfold afterLastSlash
    rw [if_pos hcont]
  have hn1' : (get_name_from_data_dict_entry
      (String.mk ((P.data.reverse.takeWhile (fun c => c ≠ '/')).reverse))).data.head? =
      some c0 := hn1
  have hreq' : get_required_string
      (getNode (convert_data_converter_dict_to_nxdl_path P)) = "<<REQUIRED>>" := hreq
  have hbody : validate_data_dict [P] data (some getNode) =
      (match requiredStep getNode data P
          (path_in_data_dict (convert_data_converter_dict_to_nxdl_path P) data).1
          (path_in_data_dict (convert_data_converter_dict_to_nxdl_path P) data).2
          (getNode (convert_data_converter_dict_to_nxdl_path P)) with
       | .error e => .error e
       | .ok _ =>
         match nxdlTypeOf (getNode (convert_data_converter_dict_to_nxdl_path P)) with
         | .error e => .error e
         | .ok nxdl_type =>
           match valueStep data
               (path_in_data_dict (convert_data_converter_dict_to_nxdl_path P) data).1
               (path_in_data_dict (convert_data_converter_dict_to_nxdl_path P) data).2
               nxdl_type (getNode (convert_data_converter_dict_to_nxdl_path P)) with
           | .error e => .error e
           | .ok _ => Except.ok true) := by
    simp only [validate_data_dict, validate_go, hafter, hn1']
    rw [if_neg hn2]
  have hmissE : (if (path_in_data_dict (convert_data_converter_dict_to_nxdl_path P) data).1
          = false then Except.ok true
      else
        match dictGet data
            (path_in_data_dict (convert_data_converter_dict_to_nxdl_path P) data).2 with
        | .error e => .error e
        | .ok v => .ok (pyIsNone v)) = Except.ok true := by
    rcases hmiss with hf | hv
    · rw [if_pos hf]
    · by_cases hp1 : (path_in_data_dict (convert_data_converter_dict_to_nxdl_path P) data).1
          = false
      · rw [if_pos hp1]
      · rw [if_neg hp1]
        simp [dictGet, hv, pyIsNone]
  have hrs : requiredStep getNode data P
      (path_in_data_dict (convert_data_converter_dict_to_nxdl_path P) data).1
      (path_in_data_dict (convert_data_converter_dict_to_nxdl_path P) data).2
      (getNode (convert_data_converter_dict_to_nxdl_path P)) =
      (match check_for_optional_parent getNode P with
       | .error e => .error e
       | .ok optional_parent =>
         if optional_parent = "<<NOT_FOUND>>" ||
             check_are_children_set optional_parent data then
           .error (.exception (missingRequiredMsg
             (path_in_data_dict (convert_data_converter_dict_to_nxdl_path P) data).2 P))
         else .ok ()) := by
    unfold requiredStep
    rw [if_pos hreq']
    simp only [hmissE]
    simp
  have hcfop : check_for_optional_parent getNode P =
      (match (ancestorChain P).find?
          (fun a => isOptionalOrRecommended (classifyPath getNode a)) with
       | some a => Except.ok a
       | none => Except.ok "<<NOT_FOUND>>") := by
    simpa [check_for_optional_parent, ancestorChain] using
      cfop_fuel_eq_find getNode (P.data.length + 1) P hhead (Nat.le_succ _)
  cases hfind : (ancestorChain P).find?
      (fun a => isOptionalOrRecommended (classifyPath getNode a)) with
  | none =>
    have hall : ∀ a ∈ ancestorChain P, isOptionalOrRecommended (classifyPath getNode a)
        = false := by
      intro a ha
      simpa using List.find?_eq_none.mp hfind a ha
    have hvraise : validate_data_dict [P] data (some getNode) =
        .error (.exception (missingRequiredMsg
          (path_in_data_dict (convert_data_converter_dict_to_nxdl_path P) data).2 P)) := by
      rw [hbody, hrs, hcfop, hfind]
      simp
    refine ⟨?_, ?_⟩
    · rw [hvraise]
      exact ⟨fun _ => Or.inl hall, fun _ => rfl⟩
    · intro hno
      exact absurd (Or.inl hall) hno
  | some A =>
    have hpredA : isOptionalOrRecommended (classifyPath getNode A) = true := by
      simpa using List.find?_some hfind
    have hmemA : A ∈ ancestorChain P := List.mem_of_find?_eq_some hfind
    have hheadA : A.data.head? = some '/' :=
      ancestorChainFuel_mem_head (P.data.length + 1) P hhead A hmemA
    have hANF : A ≠ "<<NOT_FOUND>>" := string_head_slash_ne_not_found hheadA
    by_cases hchild : check_are_children_set A data = true
    · have hvraise : validate_data_dict [P] data (some getNode) =
          .error (.exception (missingRequiredMsg
            (path_in_data_dict (convert_data_converter_dict_to_nxdl_path P) data).2 P)) := by
        rw [hbody, hrs, hcfop, hfind]
        simp [hchild]
      refine ⟨?_, ?_⟩
      · rw [hvraise]
        refine ⟨fun _ => Or.inr ⟨A, rfl, ?_⟩, fun _ => rfl⟩
        rw [specHasPopulatedContaining_eq_check]
        exact hchild
      · intro hno
        exfalso
        apply hno
        refine Or.inr ⟨A, rfl, ?_⟩
        rw [specHasPopulatedContaining_eq_check]
        exact hchild
    · have hchild' : check_are_children_set A data = false := by simpa using hchild
      obtain ⟨e0, hg⟩ : ∃ e, getNode (convert_data_converter_dict_to_nxdl_path P)
          = some e := by
        cases hgg : getNode (convert_data_converter_dict_to_nxdl_path P) with
        | none => rw [hgg] at hreq'; exact absurd hreq' (by simp [get_required_string])
        | some e => exact ⟨e, rfl⟩
      have hvs : ∀ (t : String) (el : Option XElem), valueStep data
          (path_in_data_dict (convert_data_converter_dict_to_nxdl_path P) data).1
          (path_in_data_dict (convert_data_converter_dict_to_nxdl_path P) data).2
          t el = .ok () := by
        intro t el
        unfold valueStep
        rcases hmiss with hf | hv
        · rw [if_neg (by simp [hf])]
        · by_cases hp1 : (path_in_data_dict
              (convert_data_converter_dict_to_nxdl_path P) data).1 = true
          · rw [if_pos hp1]
            simp [dictGet, hv, pyIsNone]
          · rw [if_neg hp1]
      have hok : validate_data_dict [P] data (some getNode) = .ok true := by
        have hcond : (decide (A = "<<NOT_FOUND>>") || check_are_children_set A data)
            = false := by
          simp [hANF, hchild']
        rw [hbody, hrs, hcfop, hfind, hg]
        simp [hcond, nxdlTypeOf, hvs]
      refine ⟨?_, fun _ => hok⟩
      rw [hok]
      constructor
      · intro h
        exact absurd h (by simp)
      · intro hrc
        exfalso
        rcases hrc with hall | ⟨A', hA', hpop⟩
        · have := hall A hmemA
          rw [hpredA] at this
          cases this
        · injection hA' with hAA
          subst hAA
          rw [specHasPopulatedContaining_eq_check, hchild'] at hpop
          cases hpop

/-- An optional instrument group of a concrete application definition. -/
def instOptElem : XElem :=
  .mk "group" [("type", "NXinstrument"), ("optional", "true")]
    "applications/NXtest.nxdl.xml" "" []

/-- A required group of a concrete application definition. -/
def instReqElem : XElem :=
  .mk "group" [("type", "NXsample")] "applications/NXtest.nxdl.xml" "" []

/-- A concrete schema-navigation function: sample under instrument under
entry, with the instrument group optional and everything else required. -/
def ceGetNode : String → Option XElem := fun p =>
  if p = "/ENTRY/instrument/sample" then some instReqElem
  else if p = "/ENTRY/instrument" then some instOptElem
  else if p = "/ENTRY" then some instReqElem
  else none

/-- The required template path nested under the optional instrument group. -/
def cePath : String := "/ENTRY[entry]/instrument[instrument]/sample"

/-- A populated template whose only entry is a sibling of the optional
instrument group, not a descendant, but whose schema-notation path contains
the instrument group's schema-notation path as a substring. -/
def ceData : DataDict := [("/ENTRY[entry]/instrument2", .vStr "x")]

/-- C1: the claim suppresses the missing-required error when the nearest
OPTIONAL/RECOMMENDED ancestor has no populated descendant.  Here the nearest
optional ancestor /ENTRY[entry]/instrument[instrument] has no populated
descendant at all, yet validation still raises the missing-required
exception, because the code tests substring containment and the populated
sibling path /ENTRY/instrument2 contains /ENTRY/instrument as a substring. -/
theorem C1_counterexample :
    classifyPath ceGetNode cePath = "<<REQUIRED>>" ∧
    (path_in_data_dict (convert_data_converter_dict_to_nxdl_path cePath) ceData).1 = false ∧
    (ancestorChain cePath).find?
        (fun a => isOptionalOrRecommended (classifyPath ceGetNode a)) =
      some "/ENTRY[entry]/instrument[instrument]" ∧
    specHasPopulatedDescendant ceData "/ENTRY[entry]/instrument[instrument]" = false ∧
    validate_data_dict [cePath] ceData (some ceGetNode) =
      .error (.exception (missingRequiredMsg "" cePath)) :=
  ⟨rfl, rfl, rfl, rfl, rfl⟩

theorem C1_witness :
    ((lastSegmentName cePath).data.head? = some 's') ∧
    (classifyPath ceGetNode cePath = "<<REQUIRED>>") ∧
    ((validate_data_dict [cePath] [] (some ceGetNode) =
        .error (.exception (missingRequiredMsg
          (path_in_data_dict (convert_data_converter_dict_to_nxdl_path cePath)
            ([] : DataDict)).2 cePath)) ↔
      ((∀ a ∈ ancestorChain cePath,
          isOptionalOrRecommended (classifyPath ceGetNode a) = false) ∨
        ∃ A, (ancestorChain cePath).find?
            (fun a => isOptionalOrRecommended (classifyPath ceGetNode a)) = some A ∧
          specHasPopulatedContaining ([] : DataDict) A = true)) ∧
      (¬ ((∀ a ∈ ancestorChain cePath,
          isOptionalOrRecommended (classifyPath ceGetNode a) = false) ∨
        ∃ A, (ancestorChain cePath).find?
            (fun a => isOptionalOrRecommended (classifyPath ceGetNode a)) = some A ∧
          specHasPopulatedContaining ([] : DataDict) A = true) →
        validate_data_dict [cePath] [] (some ceGetNode) = .ok true)) :=
  ⟨rfl, rfl, C1_required_suppression_amended ceGetNode [] cePath 's'
    rfl rfl (by decide) rfl (Or.inl rfl)⟩

end Pynxtools
